import Mathlib

/-!
Verification of the compliance scoring and ranking engine of the
weather-risk-to-business-compliance platform.

The scoring core consists of:
* the Compliance Scorer `calculate_compliance_score` (spec §4.2),
* the Ranking Engine `rank_businesses` (spec §4.3, `get_business_ranking` in
  `app/routers/sensors.py`),
* the Portfolio/Policy Aggregator `get_business_portfolio` and
  `get_policy_for_business` (`app/routers/insurance.py`),
* the Trend Synthesizer (`compare_businesses` in `app/routers/insurance.py`).

The checkout's copy of `app/routers/sensors.py` is a superseded revision: its
in-repo callers (`app/routers/insurance.py`,
`app/daily_sensor_generation.py`) import `_get_latest_sensors_for_business`
from it, a function that copy does not define, and describe the scorer as per-category ("includes sensor_type, needed
for per-category scoring"), while the copy's scorer never reads `sensor_type`.
The canonical severity-weighted scorer and ranking engine are therefore
modelled from the spec (§4.2, §4.3); the insurance router, which is current in
the checkout, is embedded from its source.

Machine integers are modelled as `ℕ` (all scores are non-negative and Python's
`int()` on non-negative values is floor, i.e. `ℕ` division); the float policy
thresholds and trend scores, which are only compared and clamped, are modelled
as `ℚ`.
-/

/-- A sensor snapshot entry as consumed by the scorer: the latest reading of one
physical sensor, reduced to the two fields the scorer reads (`sensor_type` and
severity `status`). -/
structure SensorEntry where
  sensor_type : String
  status : String
deriving DecidableEq, Repr

/-- Modelled from the spec: severity weight of a reading status,
weight(`normal`) = 100, weight(`warning`) = 50, weight(`critical`) = 0
(spec §4.2 step 1). -/
def statusWeight (status : String) : ℕ :=
  if status = "normal" then 100 else if status = "warning" then 50 else 0

/-- Readings of one sensor category present in a snapshot. -/
def categoryReadings (sensors : List SensorEntry) (cat : String) : List SensorEntry :=
  sensors.filter (fun s => s.sensor_type == cat)

/-- Modelled from the spec: per-category sensor health, the floored mean of
per-reading severity weights; a category with no readings present contributes 0
(spec §4.2 steps 1 and 6). -/
def categoryScore (sensors : List SensorEntry) (cat : String) : ℕ :=
  let rs := categoryReadings sensors cat
  if rs.length = 0 then 0
  else ((rs.map (fun s => statusWeight s.status)).sum) / rs.length

/-- Modelled from the spec: recommendation compliance percentage,
`followed / total * 100` floored when `total > 0`, else 0 (spec §4.2 step 2). -/
def recommendationScore (followed total : ℕ) : ℕ :=
  if 0 < total then followed * 100 / total else 0

/-- Whether at least one reading of the category is present in the snapshot. -/
def categoryPresent (sensors : List SensorEntry) (cat : String) : Bool :=
  sensors.any (fun s => s.sensor_type == cat)

/-- Modelled from the spec: the list of scores of "active" categories — a sensor
category is active when present in the snapshot (even when its score is 0), the
recommendation category is active when `total > 0` (spec §4.2 step 4, §9
disambiguation "excluded when absent, counted when present-but-zero"). -/
def activeScores (sensors : List SensorEntry) (followed total : ℕ) : List ℕ :=
  (if categoryPresent sensors "Temperature" then [categoryScore sensors "Temperature"] else []) ++
  (if categoryPresent sensors "Power" then [categoryScore sensors "Power"] else []) ++
  (if categoryPresent sensors "Humidity" then [categoryScore sensors "Humidity"] else []) ++
  (if 0 < total then [recommendationScore followed total] else [])

/-- The computed compliance view: overall score, the four category scores,
recommendation counts and rank label (spec §3 `ComplianceResult`). -/
structure ComplianceResult where
  overall_score : ℕ
  temperature_control : ℕ
  equipment_maintenance : ℕ
  inventory_management : ℕ
  safety_protocols : ℕ
  recommendations_followed : ℕ
  recommendations_total : ℕ
  rank : String
deriving DecidableEq, Repr

/-- Modelled from the spec: rank label from the overall score,
`≥ 90 → Excellent`, `≥ 75 → Good`, `≥ 60 → Fair`, otherwise
`Needs Improvement` (spec §4.2 step 5). -/
def rankLabel (overall : ℕ) : String :=
  if 90 ≤ overall then "Excellent"
  else if 75 ≤ overall then "Good"
  else if 60 ≤ overall then "Fair"
  else "Needs Improvement"

/-- Modelled from the spec: the canonical severity-weighted Compliance Scorer
`calculate_compliance_score` of `app/routers/sensors.py` (spec §4.2), whose
defining revision is absent from the checkout (only superseded code and callers
remain). With no sensor data and no recommendation data it short-circuits to the
`No Data` rank with all category scores 0; otherwise it maps Temperature /
Power / Humidity health to `temperature_control` / `equipment_maintenance` /
`inventory_management`, recommendation compliance to `safety_protocols`, and
takes the overall score as the floored mean over active categories. -/
def calculate_compliance_score (sensors : List SensorEntry)
    (recommendations_followed recommendations_total : ℕ) : ComplianceResult :=
  if sensors.length = 0 ∧ recommendations_total = 0 then
    { overall_score := 0
      temperature_control := 0
      equipment_maintenance := 0
      inventory_management := 0
      safety_protocols := 0
      recommendations_followed := recommendations_followed
      recommendations_total := recommendations_total
      rank := "No Data" }
  else
    let acts := activeScores sensors recommendations_followed recommendations_total
    let overall := if acts.length = 0 then 0 else acts.sum / acts.length
    { overall_score := overall
      temperature_control := categoryScore sensors "Temperature"
      equipment_maintenance := categoryScore sensors "Power"
      inventory_management := categoryScore sensors "Humidity"
      safety_protocols := recommendationScore recommendations_followed recommendations_total
      recommendations_followed := recommendations_followed
      recommendations_total := recommendations_total
      rank := rankLabel overall }

/-- Per-business input of the Ranking Engine: display metadata plus the data
the Scorer consumes (deduplicated sensor snapshot and recommendation-tracking
counts), as pulled per business by `get_business_ranking`. -/
structure BusinessData where
  business_id : ℕ
  name : String
  sensors : List SensorEntry
  followed : ℕ
  total : ℕ
deriving DecidableEq, Repr

/-- One ranked leaderboard entry (`rank`, name, score, rank label,
recommendation counts), as assembled by `get_business_ranking`. -/
structure RankedEntry where
  rank : ℕ
  business_id : ℕ
  business_name : String
  score : ℕ
  rank_level : String
  recommendations_followed : ℕ
  recommendations_total : ℕ
deriving DecidableEq, Repr

/-- Modelled from the spec: score one business with the Scorer and attach its
display metadata; the rank position is assigned later (spec §4.3). -/
def scoreEntry (b : BusinessData) : RankedEntry :=
  let c := calculate_compliance_score b.sensors b.followed b.total
  { rank := 0
    business_id := b.business_id
    business_name := b.name
    score := c.overall_score
    rank_level := c.rank
    recommendations_followed := c.recommendations_followed
    recommendations_total := c.recommendations_total }

/-- Modelled from the spec: sort entries by overall score, descending unless
`asc` (spec §4.3); a stable merge sort, per spec §5. -/
def sortEntries (asc : Bool) (l : List RankedEntry) : List RankedEntry :=
  l.mergeSort (fun a b => if asc then decide (a.score ≤ b.score) else decide (b.score ≤ a.score))

/-- Modelled from the spec: assign 1-based rank positions in sorted order
(spec §4.3, `enumerate(business_scores, 1)` in the ranking endpoint). -/
def assignRanks : ℕ → List RankedEntry → List RankedEntry
  | _, [] => []
  | i, e :: rest => { e with rank := i } :: assignRanks (i + 1) rest

/-- Modelled from the spec: the fully scored, sorted and rank-numbered list over
all businesses — every business is scored, none is skipped (spec §4.3). -/
def rankAll (bs : List BusinessData) (asc : Bool) : List RankedEntry :=
  assignRanks 1 (sortEntries asc (bs.map scoreEntry))

/-- Output of the Ranking Engine: the general leaderboard plus the caller's own
entry, separated out. -/
structure RankingOutput where
  rankings : List RankedEntry
  your_business : Option RankedEntry
deriving DecidableEq, Repr

/-- Whether an entry belongs to the caller's business. -/
def callerMatches (caller : Option ℕ) (e : RankedEntry) : Bool :=
  match caller with
  | some c => e.business_id == c
  | none => false

/-- Modelled from the spec: the Ranking Engine `rank_businesses`
(`get_business_ranking` in `app/routers/sensors.py`, spec §4.3): score and rank
all businesses, extract the caller's business out of the general list into
`your_business`, truncate the remaining list to `limit` entries, and return
`your_business = none` when the caller has no business identifier. -/
def rank_businesses (bs : List BusinessData) (caller : Option ℕ) (limit : ℕ)
    (asc : Bool) : RankingOutput :=
  let ranked := rankAll bs asc
  { rankings := (ranked.filter (fun e => !(callerMatches caller e))).take limit
    your_business :=
      match caller with
      | none => none
      | some c => ranked.find? (fun e => e.business_id == c) }

/-- An insurer policy row as read by the portfolio endpoint: optional scope to a
single business and a float compliance threshold (`app/routers/insurance.py`,
class `Policy`). -/
structure PolicyRow where
  business_id : Option ℕ
  compliance_threshold : ℚ
deriving DecidableEq, Repr

/-- The most specific policy for a business: the first pre-loaded policy whose
`business_id` equals the given one, else none
(`get_policy_for_business`, `app/routers/insurance.py` lines 192-199). -/
def get_policy_for_business (all_policies : List PolicyRow) (business_id : ℕ) :
    Option PolicyRow :=
  all_policies.find? (fun p => p.business_id == some business_id)

/-- Per-business input of the Portfolio Aggregator: metadata plus the Scorer's
inputs, as fetched per business by `get_business_portfolio`. -/
structure PortfolioBusiness where
  business_id : ℕ
  name : String
  store_type : Option String
  city : Option String
  sensors : List SensorEntry
  followed : ℕ
  total : ℕ
deriving DecidableEq, Repr

/-- Risk tier from the overall score: `≥ 90 → Low`, `≥ 75 → Medium`,
`≥ 60 → High`, `< 60 → Critical` (`get_business_portfolio`). -/
def riskLevelOf (score : ℕ) : String :=
  if 90 ≤ score then "Low"
  else if 75 ≤ score then "Medium"
  else if 60 ≤ score then "High"
  else "Critical"

/-- Python `x or "Unknown"` on an optional string column: `None` and the empty
string are falsy and give `"Unknown"`. -/
def orUnknown : Option String → String
  | none => "Unknown"
  | some s => if s = "" then "Unknown" else s

/-- Skip predicate of the `risk_level` portfolio filter:
`if risk_level and risk != risk_level: continue` — a `None` or empty-string
filter is falsy and never skips. -/
def skipRisk : Option String → String → Bool
  | none, _ => false
  | some v, risk => !(v == "") && !(risk == v)

/-- Skip predicate of the `min_score` portfolio filter:
`if min_score and score < min_score: continue` — a `None` or exactly-zero
filter value is falsy and never skips. -/
def skipMin : Option ℚ → ℕ → Bool
  | none, _ => false
  | some v, score => decide (v ≠ 0) && decide ((score : ℚ) < v)

/-- Skip predicate of the `max_score` portfolio filter:
`if max_score and score > max_score: continue` — a `None` or exactly-zero
filter value is falsy and never skips. -/
def skipMax : Option ℚ → ℕ → Bool
  | none, _ => false
  | some v, score => decide (v ≠ 0) && decide (v < (score : ℚ))

/-- One portfolio output entry (`get_business_portfolio`); the pass-through
database counts (`notes_count`, `claims_count`) and the wall-clock
`last_updated` stamp, which no scoring logic reads, are omitted. -/
structure PortfolioItem where
  business_id : ℕ
  business_name : String
  store_type : String
  city : String
  compliance_score : ℕ
  rank_level : String
  risk_level : String
  policy_threshold : Option ℚ
  policy_violated : Bool
deriving DecidableEq, Repr

/-- Build one portfolio entry: resolve the business's policy, record its
threshold, and flag a violation exactly when a threshold exists and the score is
strictly below it (`app/routers/insurance.py` lines 241-261). -/
def mkPortfolioItem (all_policies : List PolicyRow) (b : PortfolioBusiness)
    (compliance : ComplianceResult) (risk : String) : PortfolioItem :=
  let policy := get_policy_for_business all_policies b.business_id
  let policy_threshold := policy.map (fun p => p.compliance_threshold)
  { business_id := b.business_id
    business_name := b.name
    store_type := orUnknown b.store_type
    city := orUnknown b.city
    compliance_score := compliance.overall_score
    rank_level := compliance.rank
    risk_level := risk
    policy_threshold := policy_threshold
    policy_violated :=
      match policy_threshold with
      | none => false
      | some th => decide ((compliance.overall_score : ℚ) < th) }

/-- The loop body of `get_business_portfolio` for one in-scope business: score
it, derive its risk tier, drop it when a filter skips it, otherwise build its
portfolio entry. -/
def portfolioStep (all_policies : List PolicyRow) (risk_level : Option String)
    (min_score max_score : Option ℚ) (b : PortfolioBusiness) :
    Option PortfolioItem :=
  let compliance := calculate_compliance_score b.sensors b.followed b.total
  let risk := riskLevelOf compliance.overall_score
  if skipRisk risk_level risk || skipMin min_score compliance.overall_score ||
      skipMax max_score compliance.overall_score then none
  else some (mkPortfolioItem all_policies b compliance risk)

/-- The Portfolio Aggregator `get_business_portfolio`
(`app/routers/insurance.py` lines 163-270): filter in-scope businesses by
`store_type`, score each with the Scorer, derive the risk tier, apply the
`risk_level` / `min_score` / `max_score` filters with Python truthiness, flag
policy violations, count them over the filtered set, and sort by score
descending. Returns `(businesses, total, violations_count)`. -/
def get_business_portfolio (businesses : List PortfolioBusiness)
    (all_policies : List PolicyRow) (risk_level : Option String)
    (store_type : Option String) (min_score max_score : Option ℚ) :
    List PortfolioItem × ℕ × ℕ :=
  let inScope :=
    match store_type with
    | none => businesses
    | some st => if st = "" then businesses
                 else businesses.filter (fun b => b.store_type == some st)
  let items := inScope.filterMap (portfolioStep all_policies risk_level min_score max_score)
  let violations_count := (items.filter (fun e => e.policy_violated)).length
  let sorted := items.mergeSort (fun a b => decide (b.compliance_score ≤ a.compliance_score))
  (sorted, sorted.length, violations_count)

/-- One point of the synthesized trend series: the day as an offset in days
relative to "now" (0 = today, negative = past) and the score. -/
structure TrendPoint where
  day_offset : ℤ
  score : ℚ
deriving DecidableEq, Repr

/-- Clamp a trend score to `[0, 100]`:
`max(0, min(100, base_score + variation))` (`compare_businesses`). -/
def clampScore (x : ℚ) : ℚ := max 0 (min 100 x)

/-- Round to one decimal place, `round(x, 1)` on the clamped score. -/
def roundTenth (x : ℚ) : ℚ := ((⌊10 * x + 1 / 2⌋ : ℤ) : ℚ) / 10

/-- The Trend Synthesizer of `compare_businesses`
(`app/routers/insurance.py` lines 738-750): for `i` in `0..6`, the point for day
`now - (6 - i)` gets score `round(max(0, min(100, base + variation_i)), 1)`,
where each `variation_i` is an independent `random.uniform(-5, 5)` draw —
modelled here as an explicit perturbation oracle `variation`. Every day,
including today (`i = 6`), receives a perturbation. -/
def synthesize_trend (base : ℚ) (variation : Fin 7 → ℚ) : List TrendPoint :=
  (List.finRange 7).map (fun (i : Fin 7) =>
    { day_offset := (i.val : ℤ) - 6
      score := roundTenth (clampScore (base + variation i)) })

/-- A snapshot of exactly two Temperature sensors, one normal and one
critical. -/
def twoTempSnapshot : List SensorEntry :=
  [{ sensor_type := "Temperature", status := "normal" },
   { sensor_type := "Temperature", status := "critical" }]

/-- Forget the rank position of an entry (used to relate ranked entries back to
the scored businesses they came from). -/
def eraseRank (e : RankedEntry) : RankedEntry := { e with rank := 0 }

/-- The range invariant of a compliance result: the overall score and every one
of the four category scores lie in 0–100. -/
def scoresBounded (r : ComplianceResult) : Prop :=
  (0 ≤ r.overall_score ∧ r.overall_score ≤ 100) ∧
  (0 ≤ r.temperature_control ∧ r.temperature_control ≤ 100) ∧
  (0 ≤ r.equipment_maintenance ∧ r.equipment_maintenance ≤ 100) ∧
  (0 ≤ r.inventory_management ∧ r.inventory_management ≤ 100) ∧
  (0 ≤ r.safety_protocols ∧ r.safety_protocols ≤ 100)

/-- A demo no-data business used to instantiate ranking theorems. -/
def noDataBiz : BusinessData :=
  { business_id := 1, name := "Fresh Deli", sensors := [], followed := 0, total := 0 }

/-- A demo business with one normal Temperature sensor. -/
def tempBiz : BusinessData :=
  { business_id := 2, name := "Cold Storage Co"
    sensors := [{ sensor_type := "Temperature", status := "normal" }]
    followed := 0, total := 0 }

/-- A demo portfolio business whose score is 70 (7 of 10 recommendations
implemented, no sensors). -/
def portfolioBiz70 : PortfolioBusiness :=
  { business_id := 2, name := "Corner Butcher", store_type := some "butcher_shop"
    city := some "Tel Aviv", sensors := [], followed := 7, total := 10 }

/-- A demo policy for business 2 with threshold 75. -/
def policyFor2 : PolicyRow := { business_id := some 2, compliance_threshold := 75 }

/-- The portfolio entry produced for `portfolioBiz70` under `policyFor2`: score
70 against threshold 75, hence flagged as violating. -/
def item70 : PortfolioItem :=
  { business_id := 2
    business_name := "Corner Butcher"
    store_type := "butcher_shop"
    city := "Tel Aviv"
    compliance_score := 70
    rank_level := "Fair"
    risk_level := "High"
    policy_threshold := some 75
    policy_violated := true }

/-- Claim C1: the no-data short-circuit of the Compliance Scorer — scoring an
empty sensor list with 0 followed and 0 total recommendations yields overall
score 0, all four category scores 0, and rank label `No Data`. -/
theorem compliance_score_no_data_short_circuit :
    (calculate_compliance_score [] 0 0).overall_score = 0 ∧
    (calculate_compliance_score [] 0 0).temperature_control = 0 ∧
    (calculate_compliance_score [] 0 0).equipment_maintenance = 0 ∧
    (calculate_compliance_score [] 0 0).inventory_management = 0 ∧
    (calculate_compliance_score [] 0 0).safety_protocols = 0 ∧
    (calculate_compliance_score [] 0 0).rank = "No Data" := by
  decide

/-- Helper: a category with at least one reading forces a non-empty snapshot. -/
theorem present_sensors_pos (sensors : List SensorEntry) (cat : String)
    (h : 0 < (categoryReadings sensors cat).length) : 0 < sensors.length := by
  have hle := List.length_filter_le (fun s => s.sensor_type == cat) sensors
  unfold categoryReadings at h
  omega

/-- Helper: outside the no-data short-circuit, the four category fields of the
scorer are the per-category health scores and the recommendation score. -/
theorem compliance_fields_of_not_short (sensors : List SensorEntry) (f t : ℕ)
    (h : ¬(sensors.length = 0 ∧ t = 0)) :
    (calculate_compliance_score sensors f t).temperature_control =
      categoryScore sensors "Temperature" ∧
    (calculate_compliance_score sensors f t).equipment_maintenance =
      categoryScore sensors "Power" ∧
    (calculate_compliance_score sensors f t).inventory_management =
      categoryScore sensors "Humidity" ∧
    (calculate_compliance_score sensors f t).safety_protocols =
      recommendationScore f t ∧
    (calculate_compliance_score sensors f t).overall_score =
      (if (activeScores sensors f t).length = 0 then 0
       else (activeScores sensors f t).sum / (activeScores sensors f t).length) := by
  unfold calculate_compliance_score
  rw [if_neg h]
  exact ⟨rfl, rfl, rfl, rfl, rfl⟩

/-- Helper: a present category's score is the floored mean of its readings'
severity weights. -/
theorem categoryScore_of_present (sensors : List SensorEntry) (cat : String)
    (h : 0 < (categoryReadings sensors cat).length) :
    categoryScore sensors cat =
      ((categoryReadings sensors cat).map (fun s => statusWeight s.status)).sum /
        (categoryReadings sensors cat).length := by
  unfold categoryScore
  rw [if_neg (by omega)]

/-- Claim C2: each sensor-derived category score is the floored mean of the
per-reading severity weights (`normal` = 100, `warning` = 50, `critical` = 0)
over the readings of that category present in the snapshot; in particular a
snapshot of exactly two Temperature sensors, one `normal` and one `critical`,
gives `temperature_control = 50`. -/
theorem compliance_category_scores_severity_mean :
    statusWeight "normal" = 100 ∧ statusWeight "warning" = 50 ∧
    statusWeight "critical" = 0 ∧
    (∀ (sensors : List SensorEntry) (f t : ℕ),
      (0 < (categoryReadings sensors "Temperature").length →
        (calculate_compliance_score sensors f t).temperature_control =
          ((categoryReadings sensors "Temperature").map (fun s => statusWeight s.status)).sum /
            (categoryReadings sensors "Temperature").length) ∧
      (0 < (categoryReadings sensors "Power").length →
        (calculate_compliance_score sensors f t).equipment_maintenance =
          ((categoryReadings sensors "Power").map (fun s => statusWeight s.status)).sum /
            (categoryReadings sensors "Power").length) ∧
      (0 < (categoryReadings sensors "Humidity").length →
        (calculate_compliance_score sensors f t).inventory_management =
          ((categoryReadings sensors "Humidity").map (fun s => statusWeight s.status)).sum /
            (categoryReadings sensors "Humidity").length)) ∧
    (calculate_compliance_score twoTempSnapshot 0 0).temperature_control = 50 := by
  refine ⟨rfl, rfl, rfl, ?_, by decide⟩
  intro sensors f t
  refine ⟨fun h => ?_, fun h => ?_, fun h => ?_⟩
  · have hns : ¬(sensors.length = 0 ∧ t = 0) := by
      have := present_sensors_pos sensors "Temperature" h
      omega
    rw [(compliance_fields_of_not_short sensors f t hns).1]
    exact categoryScore_of_present sensors "Temperature" h
  · have hns : ¬(sensors.length = 0 ∧ t = 0) := by
      have := present_sensors_pos sensors "Power" h
      omega
    rw [(compliance_fields_of_not_short sensors f t hns).2.1]
    exact categoryScore_of_present sensors "Power" h
  · have hns : ¬(sensors.length = 0 ∧ t = 0) := by
      have := present_sensors_pos sensors "Humidity" h
      omega
    rw [(compliance_fields_of_not_short sensors f t hns).2.2.1]
    exact categoryScore_of_present sensors "Humidity" h

/-- Witness for C2: the severity-mean equality instantiated at the concrete
two-Temperature snapshot. -/
theorem compliance_category_scores_severity_mean_check :
    (calculate_compliance_score twoTempSnapshot 0 0).temperature_control =
      ((categoryReadings twoTempSnapshot "Temperature").map (fun s => statusWeight s.status)).sum /
        (categoryReadings twoTempSnapshot "Temperature").length :=
  (compliance_category_scores_severity_mean.2.2.2.1 twoTempSnapshot 0 0).1 (by decide)

/-- Counterexample for C3: at `score([], 3, 4)` the overall score is 75 and the
rank thresholds (`≥ 75 → Good`) give rank `Good`, not `Fair` as claimed. -/
theorem compliance_rank_75_not_fair :
    (calculate_compliance_score [] 3 4).rank = "Good" ∧
    (calculate_compliance_score [] 3 4).rank ≠ "Fair" := by
  decide

/-- Claim C3 (amended): the recommendation category score is
`followed / total * 100` floored when `total > 0` and 0 otherwise; scoring an
empty sensor list with 3 followed of 4 total yields `safety_protocols = 75`,
overall score 75 (recommendations being the only active category), and rank
label `Good` (75 meets the `≥ 75 → Good` threshold, not `Fair`). -/
theorem compliance_recommendation_ratio :
    (∀ (sensors : List SensorEntry) (f t : ℕ),
      (calculate_compliance_score sensors f t).safety_protocols =
        if 0 < t then f * 100 / t else 0) ∧
    (calculate_compliance_score [] 3 4).safety_protocols = 75 ∧
    (calculate_compliance_score [] 3 4).overall_score = 75 ∧
    (calculate_compliance_score [] 3 4).rank = "Good" := by
  refine ⟨?_, by decide, by decide, by decide⟩
  intro sensors f t
  by_cases h : sensors.length = 0 ∧ t = 0
  · unfold calculate_compliance_score
    rw [if_pos h]
    have ht : ¬ 0 < t := by omega
    simp [ht]
  · rw [(compliance_fields_of_not_short sensors f t h).2.2.2.1]
    rfl

/-- Claim C4: the Compliance Scorer is deterministic — two invocations on the
same input triple agree on the overall score, every category score, the
recommendation counts, the rank label, and hence on the whole result. -/
theorem compliance_score_deterministic :
    ∀ (sensors : List SensorEntry) (f t : ℕ) (r1 r2 : ComplianceResult),
      r1 = calculate_compliance_score sensors f t →
      r2 = calculate_compliance_score sensors f t →
      r1.overall_score = r2.overall_score ∧
      r1.temperature_control = r2.temperature_control ∧
      r1.equipment_maintenance = r2.equipment_maintenance ∧
      r1.inventory_management = r2.inventory_management ∧
      r1.safety_protocols = r2.safety_protocols ∧
      r1.recommendations_followed = r2.recommendations_followed ∧
      r1.recommendations_total = r2.recommendations_total ∧
      r1.rank = r2.rank ∧ r1 = r2 := by
  rintro sensors f t r1 r2 rfl rfl
  exact ⟨rfl, rfl, rfl, rfl, rfl, rfl, rfl, rfl, rfl⟩

/-- Witness for C4: determinism instantiated at a concrete input. -/
theorem compliance_score_deterministic_check :
    calculate_compliance_score twoTempSnapshot 3 4 =
      calculate_compliance_score twoTempSnapshot 3 4 :=
  (compliance_score_deterministic twoTempSnapshot 3 4
    (calculate_compliance_score twoTempSnapshot 3 4)
    (calculate_compliance_score twoTempSnapshot 3 4) rfl rfl).2.2.2.2.2.2.2.2

/-- Helper: every severity weight is at most 100. -/
theorem statusWeight_le_100 (s : String) : statusWeight s ≤ 100 := by
  unfold statusWeight
  split
  · omega
  · split <;> omega

/-- Helper: the sum of a list of naturals each at most 100 is at most
100 times its length. -/
theorem sum_le_100_mul_length (l : List ℕ) (h : ∀ x ∈ l, x ≤ 100) :
    l.sum ≤ l.length * 100 := by
  induction l with
  | nil => simp
  | cons a l ih =>
    have ha := h a (by simp)
    have hl := ih (fun x hx => h x (by simp [hx]))
    simp only [List.sum_cons, List.length_cons]
    omega

/-- Helper: the floored mean of a list of naturals each at most 100 is at most
100. -/
theorem mean_le_100 (l : List ℕ) (h : ∀ x ∈ l, x ≤ 100) :
    l.sum / l.length ≤ 100 :=
  Nat.div_le_of_le_mul (sum_le_100_mul_length l h)

/-- Helper: every category score is at most 100. -/
theorem categoryScore_le_100 (sensors : List SensorEntry) (cat : String) :
    categoryScore sensors cat ≤ 100 := by
  by_cases h : (categoryReadings sensors cat).length = 0
  · unfold categoryScore
    rw [if_pos h]
    omega
  · rw [categoryScore_of_present sensors cat (Nat.pos_of_ne_zero h)]
    have hmean := mean_le_100 ((categoryReadings sensors cat).map (fun s => statusWeight s.status))
      (by
        intro x hx
        rcases List.mem_map.mp hx with ⟨s, _, rfl⟩
        exact statusWeight_le_100 s.status)
    rwa [List.length_map] at hmean

/-- Helper: the recommendation score is at most 100 when
`followed ≤ total`. -/
theorem recommendationScore_le_100 (f t : ℕ) (h : f ≤ t) :
    recommendationScore f t ≤ 100 := by
  unfold recommendationScore
  split
  · exact Nat.div_le_of_le_mul (by omega)
  · omega

/-- Helper: every active category score is at most 100 when
`followed ≤ total`. -/
theorem activeScores_le_100 (sensors : List SensorEntry) (f t : ℕ) (h : f ≤ t) :
    ∀ x ∈ activeScores sensors f t, x ≤ 100 := by
  intro x hx
  unfold activeScores at hx
  simp only [List.mem_append] at hx
  rcases hx with ((hx | hx) | hx) | hx <;> split at hx <;>
    simp only [List.mem_singleton, List.not_mem_nil] at hx
  · exact hx ▸ categoryScore_le_100 sensors "Temperature"
  · exact hx ▸ categoryScore_le_100 sensors "Power"
  · exact hx ▸ categoryScore_le_100 sensors "Humidity"
  · exact hx ▸ recommendationScore_le_100 f t h

/-- Claim C9: for every sensor list and recommendation counts with
`followed ≤ total`, the scorer's overall score and all four category scores are
integers in 0–100. -/
theorem compliance_scores_bounded :
    ∀ (sensors : List SensorEntry) (f t : ℕ), f ≤ t →
      scoresBounded (calculate_compliance_score sensors f t) := by
  intro sensors f t h
  by_cases hc : sensors.length = 0 ∧ t = 0
  · unfold calculate_compliance_score
    rw [if_pos hc]
    simp [scoresBounded]
  · obtain ⟨h1, h2, h3, h4, h5⟩ := compliance_fields_of_not_short sensors f t hc
    refine ⟨⟨Nat.zero_le _, ?_⟩, ⟨Nat.zero_le _, ?_⟩, ⟨Nat.zero_le _, ?_⟩,
      ⟨Nat.zero_le _, ?_⟩, ⟨Nat.zero_le _, ?_⟩⟩
    · rw [h5]
      split
      · omega
      · exact mean_le_100 _ (activeScores_le_100 sensors f t h)
    · rw [h1]; exact categoryScore_le_100 sensors "Temperature"
    · rw [h2]; exact categoryScore_le_100 sensors "Power"
    · rw [h3]; exact categoryScore_le_100 sensors "Humidity"
    · rw [h4]; exact recommendationScore_le_100 f t h

/-- Witness for C9: the bounds at a concrete snapshot with 1 of 2
recommendations followed. -/
theorem compliance_scores_bounded_check :
    1 ≤ 2 ∧ scoresBounded (calculate_compliance_score twoTempSnapshot 1 2) :=
  ⟨by decide, compliance_scores_bounded twoTempSnapshot 1 2 (by decide)⟩

/-- Helper: assigning rank positions changes nothing but the rank field. -/
theorem assignRanks_map_eraseRank :
    ∀ (i : ℕ) (l : List RankedEntry),
      (assignRanks i l).map eraseRank = l.map eraseRank := by
  intro i l
  induction l generalizing i with
  | nil => rfl
  | cons e rest ih =>
    simp only [assignRanks, List.map_cons, ih]
    rfl

/-- Helper: assigning rank positions preserves the length. -/
theorem assignRanks_length :
    ∀ (i : ℕ) (l : List RankedEntry), (assignRanks i l).length = l.length := by
  intro i l
  induction l generalizing i with
  | nil => rfl
  | cons e rest ih => simp [assignRanks, ih]

/-- Helper: up to rank positions, the ranked list is a permutation of the
per-business scored entries — no business is skipped or duplicated. -/
theorem rankAll_eraseRank_perm (bs : List BusinessData) (asc : Bool) :
    ((rankAll bs asc).map eraseRank).Perm ((bs.map scoreEntry).map eraseRank) := by
  unfold rankAll
  rw [assignRanks_map_eraseRank]
  exact (List.mergeSort_perm (bs.map scoreEntry) _).map eraseRank

/-- Helper: the ranked list has one entry per business. -/
theorem rankAll_length (bs : List BusinessData) (asc : Bool) :
    (rankAll bs asc).length = bs.length := by
  unfold rankAll
  rw [assignRanks_length]
  unfold sortEntries
  rw [(List.mergeSort_perm (bs.map scoreEntry) _).length_eq, List.length_map]

/-- Helper: every business appears in the ranked list, with its scored entry
(up to the rank position). -/
theorem rankAll_mem_of_mem (bs : List BusinessData) (asc : Bool)
    (b : BusinessData) (hb : b ∈ bs) :
    ∃ e ∈ rankAll bs asc, eraseRank e = eraseRank (scoreEntry b) := by
  have hmem : eraseRank (scoreEntry b) ∈ (bs.map scoreEntry).map eraseRank :=
    List.mem_map_of_mem eraseRank (List.mem_map_of_mem scoreEntry hb)
  have hmem2 := (rankAll_eraseRank_perm bs asc).mem_iff.mpr hmem
  rcases List.mem_map.mp hmem2 with ⟨e, he, heq⟩
  exact ⟨e, he, heq⟩

/-- Helper: every ranked entry is the scored entry of one of the businesses
(up to the rank position). -/
theorem rankAll_mem_inv (bs : List BusinessData) (asc : Bool)
    (e : RankedEntry) (he : e ∈ rankAll bs asc) :
    ∃ b ∈ bs, eraseRank e = eraseRank (scoreEntry b) := by
  have hmem : eraseRank e ∈ (bs.map scoreEntry).map eraseRank :=
    (rankAll_eraseRank_perm bs asc).mem_iff.mp (List.mem_map_of_mem eraseRank he)
  rcases List.mem_map.mp hmem with ⟨x, hx, hxe⟩
  rcases List.mem_map.mp hx with ⟨b, hb, rfl⟩
  exact ⟨b, hb, hxe.symm⟩

/-- Helper: `eraseRank` preserves all fields but the rank position. -/
theorem eraseRank_fields (e1 e2 : RankedEntry) (h : eraseRank e1 = eraseRank e2) :
    e1.business_id = e2.business_id ∧ e1.score = e2.score ∧
    e1.rank_level = e2.rank_level := by
  have h1 := congrArg RankedEntry.business_id h
  have h2 := congrArg RankedEntry.score h
  have h3 := congrArg RankedEntry.rank_level h
  exact ⟨h1, h2, h3⟩

/-- Helper: the scored entry of a business with no sensor data and no tracked
recommendations has score 0 and rank label `No Data`. -/
theorem scoreEntry_no_data (b : BusinessData) (hs : b.sensors = [])
    (hf : b.followed = 0) (ht : b.total = 0) :
    (scoreEntry b).business_id = b.business_id ∧ (scoreEntry b).score = 0 ∧
    (scoreEntry b).rank_level = "No Data" := by
  unfold scoreEntry
  rw [hs, hf, ht]
  exact ⟨rfl, rfl, rfl⟩

/-- Claim C5: a business with no stored sensor readings and no
recommendation-tracking rows is not skipped by the Ranking Engine — its scored
entry, with rank label `No Data` and score 0, appears in the ranked list, and
(for distinct business identifiers and a limit covering the fleet) in the
returned output, either in `rankings` or as `your_business`. -/
theorem ranking_includes_no_data_business :
    ∀ (bs : List BusinessData) (asc : Bool) (b : BusinessData),
      b ∈ bs → b.sensors = [] → b.followed = 0 → b.total = 0 →
      (∃ e ∈ rankAll bs asc, e.business_id = b.business_id ∧
        e.rank_level = "No Data" ∧ e.score = 0) ∧
      (∀ (caller : Option ℕ) (limit : ℕ),
        (bs.map BusinessData.business_id).Nodup → bs.length ≤ limit →
        ∃ e, (e ∈ (rank_businesses bs caller limit asc).rankings ∨
              (rank_businesses bs caller limit asc).your_business = some e) ∧
          e.business_id = b.business_id ∧ e.rank_level = "No Data" ∧
          e.score = 0) := by
  intro bs asc b hb hs hf ht
  obtain ⟨hid0, hsc0, hrl0⟩ := scoreEntry_no_data b hs hf ht
  obtain ⟨e, he, heq⟩ := rankAll_mem_of_mem bs asc b hb
  obtain ⟨hid, hsc, hrl⟩ := eraseRank_fields _ _ heq
  have heid : e.business_id = b.business_id := hid.trans hid0
  have hesc : e.score = 0 := hsc.trans hsc0
  have herl : e.rank_level = "No Data" := hrl.trans hrl0
  refine ⟨⟨e, he, heid, herl, hesc⟩, ?_⟩
  intro caller limit hnd hlim
  by_cases hm : callerMatches caller e = true
  · cases caller with
    | none => simp [callerMatches] at hm
    | some c =>
      have hcid : e.business_id = c := by
        simpa [callerMatches] using hm
      have hex : ∃ x ∈ rankAll bs asc, (x.business_id == c) = true :=
        ⟨e, he, by simp [hcid]⟩
      obtain ⟨y, hy⟩ := Option.isSome_iff_exists.mp (List.find?_isSome.mpr hex)
      have hymem := List.mem_of_find?_eq_some hy
      have hybid : y.business_id = c := by simpa using List.find?_some hy
      obtain ⟨b2, hb2, heq2⟩ := rankAll_mem_inv bs asc y hymem
      obtain ⟨hid2, hsc2, hrl2⟩ := eraseRank_fields _ _ heq2
      have hb2id : b2.business_id = b.business_id := by
        have : (scoreEntry b2).business_id = b2.business_id := rfl
        rw [← this, ← hid2, hybid, ← hcid, heid]
      have hb2b : b2 = b := List.inj_on_of_nodup_map hnd hb2 hb hb2id
      subst hb2b
      refine ⟨y, Or.inr ?_, ?_, ?_, ?_⟩
      · simp only [rank_businesses]
        rw [hy]
      · rw [hybid, ← hcid, heid]
      · exact hrl2.trans hrl0
      · exact hsc2.trans hsc0
  · have hm2 : callerMatches caller e = false := by
      cases h2 : callerMatches caller e
      · rfl
      · exact absurd h2 hm
    have hefilt : e ∈ (rankAll bs asc).filter (fun x => !(callerMatches caller x)) :=
      List.mem_filter.mpr ⟨he, by simp [hm2]⟩
    have hflen : ((rankAll bs asc).filter (fun x => !(callerMatches caller x))).length ≤ limit := by
      have h1 := List.length_filter_le (fun x => !(callerMatches caller x)) (rankAll bs asc)
      have h2 := rankAll_length bs asc
      omega
    refine ⟨e, Or.inl ?_, heid, herl, hesc⟩
    simp only [rank_businesses]
    rw [List.take_of_length_le hflen]
    exact hefilt

/-- Witness for C5: a two-business fleet where business 1 has no data; its
`No Data` entry appears in the output. -/
theorem ranking_includes_no_data_business_check :
    ∃ e, (e ∈ (rank_businesses [noDataBiz, tempBiz] (some 1) 5 false).rankings ∨
          (rank_businesses [noDataBiz, tempBiz] (some 1) 5 false).your_business = some e) ∧
      e.business_id = noDataBiz.business_id ∧ e.rank_level = "No Data" ∧
      e.score = 0 :=
  (ranking_includes_no_data_business [noDataBiz, tempBiz] false noDataBiz
    (by simp) rfl rfl rfl).2 (some 1) 5 (by decide) (by decide)

/-- Claim C6: when the caller's business identifier matches a business in the
scored set, that business never appears in `rankings` — it goes only to
`your_business` — and `rankings` has at most `limit` entries; when the caller
has no business identifier, `your_business` is `none`. -/
theorem ranking_caller_exclusion :
    (∀ (bs : List BusinessData) (c limit : ℕ) (asc : Bool),
      (∃ b ∈ bs, b.business_id = c) →
      (∀ e ∈ (rank_businesses bs (some c) limit asc).rankings,
        e.business_id ≠ c) ∧
      (∃ e, (rank_businesses bs (some c) limit asc).your_business = some e ∧
        e.business_id = c) ∧
      (rank_businesses bs (some c) limit asc).rankings.length ≤ limit) ∧
    (∀ (bs : List BusinessData) (limit : ℕ) (asc : Bool),
      (rank_businesses bs none limit asc).your_business = none) := by
  constructor
  · intro bs c limit asc hex
    refine ⟨?_, ?_, ?_⟩
    · intro e he
      simp only [rank_businesses] at he
      have hef := List.mem_of_mem_take he
      have hp := (List.mem_filter.mp hef).2
      simp only [callerMatches, Bool.not_eq_true'] at hp
      intro hc
      rw [hc] at hp
      simp at hp
    · obtain ⟨b, hb, hbid⟩ := hex
      obtain ⟨e0, he0, heq0⟩ := rankAll_mem_of_mem bs asc b hb
      obtain ⟨hid0, _, _⟩ := eraseRank_fields _ _ heq0
      have hbid0 : e0.business_id = c := by
        rw [hid0]
        have : (scoreEntry b).business_id = b.business_id := rfl
        rw [this, hbid]
      have hfind : ∃ x ∈ rankAll bs asc, (x.business_id == c) = true :=
        ⟨e0, he0, by simp [hbid0]⟩
      obtain ⟨y, hy⟩ := Option.isSome_iff_exists.mp (List.find?_isSome.mpr hfind)
      refine ⟨y, ?_, by simpa using List.find?_some hy⟩
      simp only [rank_businesses]
      rw [hy]
    · simp only [rank_businesses]
      rw [List.length_take]
      omega
  · intro bs limit asc
    rfl

/-- Witness for C6: in a two-business fleet, a caller owning business 2 sees
business 2 only as `your_business`, and a caller with no business gets
`your_business = none`. -/
theorem ranking_caller_exclusion_check :
    ((∀ e ∈ (rank_businesses [noDataBiz, tempBiz] (some 2) 10 false).rankings,
        e.business_id ≠ 2) ∧
      (∃ e, (rank_businesses [noDataBiz, tempBiz] (some 2) 10 false).your_business =
          some e ∧ e.business_id = 2) ∧
      (rank_businesses [noDataBiz, tempBiz] (some 2) 10 false).rankings.length ≤ 10) ∧
    (rank_businesses [noDataBiz, tempBiz] none 10 false).your_business = none :=
  ⟨ranking_caller_exclusion.1 [noDataBiz, tempBiz] 2 10 false
      ⟨tempBiz, by simp, rfl⟩,
    ranking_caller_exclusion.2 [noDataBiz, tempBiz] 10 false⟩

/-- Helper: the violation flag of a built portfolio entry is set exactly when a
policy matched and the score is strictly below its threshold. -/
theorem mkPortfolioItem_violated (all_policies : List PolicyRow)
    (b : PortfolioBusiness) (compliance : ComplianceResult) (risk : String) :
    ((mkPortfolioItem all_policies b compliance risk).policy_violated = true ↔
      ∃ p, get_policy_for_business all_policies
            (mkPortfolioItem all_policies b compliance risk).business_id = some p ∧
        ((mkPortfolioItem all_policies b compliance risk).compliance_score : ℚ) <
          p.compliance_threshold) ∧
    (get_policy_for_business all_policies
        (mkPortfolioItem all_policies b compliance risk).business_id = none →
      (mkPortfolioItem all_policies b compliance risk).policy_violated = false) := by
  cases hp : get_policy_for_business all_policies b.business_id with
  | none =>
    constructor
    · simp [mkPortfolioItem, hp]
    · intro _
      simp [mkPortfolioItem, hp]
  | some p =>
    constructor
    · simp [mkPortfolioItem, hp]
    · intro hnone
      simp only [mkPortfolioItem] at hnone
      rw [hp] at hnone
      exact absurd hnone (by simp)

/-- Claim C7: in the Portfolio Aggregator, an entry's `policy_violated` flag is
true exactly when its score is strictly below the matched policy's threshold,
it is false whenever no policy matches, and `violations_count` equals the
number of flagged entries in the filtered result set. -/
theorem portfolio_policy_violation_flag :
    ∀ (businesses : List PortfolioBusiness) (all_policies : List PolicyRow)
      (risk_level store_type : Option String) (min_score max_score : Option ℚ),
      (∀ e ∈ (get_business_portfolio businesses all_policies risk_level
          store_type min_score max_score).1,
        (e.policy_violated = true ↔
          ∃ p, get_policy_for_business all_policies e.business_id = some p ∧
            (e.compliance_score : ℚ) < p.compliance_threshold) ∧
        (get_policy_for_business all_policies e.business_id = none →
          e.policy_violated = false)) ∧
      (get_business_portfolio businesses all_policies risk_level store_type
          min_score max_score).2.2 =
        ((get_business_portfolio businesses all_policies risk_level store_type
            min_score max_score).1.filter (fun e => e.policy_violated)).length := by
  intro businesses all_policies rl st mn mx
  constructor
  · intro e he
    simp only [get_business_portfolio] at he
    have he2 := (List.mergeSort_perm _ _).mem_iff.mp he
    obtain ⟨b, hbmem, hfb⟩ := List.mem_filterMap.mp he2
    simp only [portfolioStep] at hfb
    split at hfb
    · exact absurd hfb (by simp)
    · have hge : mkPortfolioItem all_policies b
          (calculate_compliance_score b.sensors b.followed b.total)
          (riskLevelOf (calculate_compliance_score b.sensors b.followed
            b.total).overall_score) = e := Option.some.inj hfb
      rw [← hge]
      exact mkPortfolioItem_violated all_policies b _ _
  · simp only [get_business_portfolio]
    exact (((List.mergeSort_perm _ _).filter
      (fun e : PortfolioItem => e.policy_violated)).length_eq).symm

/-- Witness for C7: one business scoring 70 under a matched threshold-75 policy
is flagged, and the violation count over the output is 1 as counted. -/
theorem portfolio_policy_violation_flag_check :
    ((item70.policy_violated = true ↔
      ∃ p, get_policy_for_business [policyFor2] item70.business_id = some p ∧
        (item70.compliance_score : ℚ) < p.compliance_threshold) ∧
     (get_policy_for_business [policyFor2] item70.business_id = none →
       item70.policy_violated = false)) ∧
    (get_business_portfolio [portfolioBiz70] [policyFor2] none none none none).2.2 =
      ((get_business_portfolio [portfolioBiz70] [policyFor2] none none none
          none).1.filter (fun e => e.policy_violated)).length :=
  ⟨(portfolio_policy_violation_flag [portfolioBiz70] [policyFor2] none none
      none none).1 item70 (by
        have hstep : portfolioStep [policyFor2] none none none portfolioBiz70 =
            some item70 := by decide
        simp [get_business_portfolio, hstep]),
    (portfolio_policy_violation_flag [portfolioBiz70] [policyFor2] none none
      none none).2⟩

/-- Claim C10: a `min_score` or `max_score` filter whose value is exactly 0 is
truthiness-checked away before the comparison, so the portfolio response is
identical to one computed with no such filter at all. -/
theorem portfolio_zero_filter_ignored :
    ∀ (businesses : List PortfolioBusiness) (all_policies : List PolicyRow)
      (risk_level store_type : Option String) (mn mx : Option ℚ),
      get_business_portfolio businesses all_policies risk_level store_type
          mn (some 0) =
        get_business_portfolio businesses all_policies risk_level store_type
          mn none ∧
      get_business_portfolio businesses all_policies risk_level store_type
          (some 0) mx =
        get_business_portfolio businesses all_policies risk_level store_type
          none mx := by
  intro businesses all_policies rl st mn mx
  have hmax : portfolioStep all_policies rl mn (some 0) =
      portfolioStep all_policies rl mn none := by
    funext b
    simp [portfolioStep, skipMax]
  have hmin : portfolioStep all_policies rl (some 0) mx =
      portfolioStep all_policies rl none mx := by
    funext b
    simp [portfolioStep, skipMin]
  constructor
  · unfold get_business_portfolio
    rw [hmax]
  · unfold get_business_portfolio
    rw [hmin]

/-- Helper: the clamp to the 0–100 score range is bounded. -/
theorem clampScore_bounds (x : ℚ) : 0 ≤ clampScore x ∧ clampScore x ≤ 100 :=
  ⟨le_max_left 0 _, max_le (by norm_num) (min_le_left _ _)⟩

/-- Helper: rounding a clamped score to one decimal keeps it in 0–100. -/
theorem roundTenth_bounds (x : ℚ) (h0 : 0 ≤ x) (h1 : x ≤ 100) :
    0 ≤ roundTenth x ∧ roundTenth x ≤ 100 := by
  unfold roundTenth
  constructor
  · apply div_nonneg _ (by norm_num)
    have hfl : (0 : ℤ) ≤ ⌊10 * x + 1 / 2⌋ := Int.le_floor.mpr (by push_cast; linarith)
    exact_mod_cast hfl
  · have hfl : ⌊10 * x + 1 / 2⌋ < 1001 := Int.floor_lt.mpr (by push_cast; linarith)
    have hfl2 : ⌊10 * x + 1 / 2⌋ ≤ 1000 := by omega
    have hq : ((⌊10 * x + 1 / 2⌋ : ℤ) : ℚ) ≤ 1000 := by exact_mod_cast hfl2
    linarith

/-- Helper: clamping and rounding an integral score already in 0–100 leaves it
unchanged. -/
theorem roundTenth_clampScore_int (z : ℤ) (h0 : 0 ≤ z) (h1 : (z : ℚ) ≤ 100) :
    roundTenth (clampScore (z : ℚ)) = (z : ℚ) := by
  have hc : clampScore (z : ℚ) = (z : ℚ) := by
    unfold clampScore
    rw [min_eq_right h1, max_eq_right (by exact_mod_cast h0)]
  rw [hc]
  unfold roundTenth
  have hf : ⌊(10 : ℚ) * z + 1 / 2⌋ = 10 * z := by
    rw [Int.floor_eq_iff]
    constructor
    · push_cast
      linarith
    · push_cast
      linarith
  rw [hf]
  push_cast
  rw [mul_comm, mul_div_assoc]
  norm_num

/-- Counterexample for C8: with the admissible uniform draw 3 (within ±5) and
current score 50, the final trend entry is dated today but scores 53, not the
current score — the code perturbs every day, today included. -/
theorem trend_today_score_not_current :
    (synthesize_trend 50 (fun _ => 3)).getLast? =
      some { day_offset := 0, score := 53 } ∧
    (-5 ≤ (3 : ℚ) ∧ (3 : ℚ) ≤ 5) ∧ (53 : ℚ) ≠ 50 := by
  refine ⟨?_, by norm_num, by norm_num⟩
  have hlast : (synthesize_trend 50 (fun _ => 3)).getLast? =
      some { day_offset := 0, score := roundTenth (clampScore (50 + 3)) } := rfl
  rw [hlast]
  have h53 : (50 : ℚ) + 3 = ((53 : ℤ) : ℚ) := by norm_num
  rw [h53, roundTenth_clampScore_int 53 (by norm_num) (by norm_num)]
  norm_num

/-- Claim C8 (amended): the synthesized series has 7 daily points; its final
point is dated today but carries, like every other point, the current score
plus that day's random perturbation, clamped to [0, 100] and rounded to one
decimal — it does not equal the current score exactly; and every point's score
lies in [0, 100]. -/
theorem trend_series_shape :
    ∀ (base : ℚ) (variation : Fin 7 → ℚ),
      (synthesize_trend base variation).length = 7 ∧
      (synthesize_trend base variation).getLast? =
        some { day_offset := 0,
               score := roundTenth (clampScore (base + variation 6)) } ∧
      (∀ p ∈ synthesize_trend base variation,
        (∃ i : Fin 7, p.day_offset = (i.val : ℤ) - 6 ∧
          p.score = roundTenth (clampScore (base + variation i))) ∧
        0 ≤ p.score ∧ p.score ≤ 100) := by
  intro base variation
  refine ⟨?_, rfl, ?_⟩
  · unfold synthesize_trend
    rw [List.length_map, List.length_finRange]
  · intro p hp
    simp only [synthesize_trend, List.mem_map] at hp
    obtain ⟨i, _, rfl⟩ := hp
    obtain ⟨hc0, hc1⟩ := clampScore_bounds (base + variation i)
    obtain ⟨hr0, hr1⟩ := roundTenth_bounds _ hc0 hc1
    exact ⟨⟨i, rfl, rfl⟩, hr0, hr1⟩

/-- Witness for C8: the shape theorem instantiated at current score 40 and
constant perturbation 2; the oldest point is dated six days back with score
42. -/
theorem trend_series_shape_check :
    (∃ i : Fin 7, (⟨-6, 42⟩ : TrendPoint).day_offset = (i.val : ℤ) - 6 ∧
      (⟨-6, 42⟩ : TrendPoint).score =
        roundTenth (clampScore (40 + (fun _ : Fin 7 => (2 : ℚ)) i))) ∧
    0 ≤ (⟨-6, 42⟩ : TrendPoint).score ∧ (⟨-6, 42⟩ : TrendPoint).score ≤ 100 :=
  (trend_series_shape 40 (fun _ => 2)).2.2 ⟨-6, 42⟩ (by
    refine List.mem_map.mpr ⟨0, List.mem_finRange 0, ?_⟩
    show TrendPoint.mk (((0 : Fin 7).val : ℤ) - 6)
        (roundTenth (clampScore (40 + 2))) = TrendPoint.mk (-6) 42
    rw [TrendPoint.mk.injEq]
    constructor
    · decide
    · have h42 : (40 : ℚ) + 2 = ((42 : ℤ) : ℚ) := by norm_num
      rw [h42, roundTenth_clampScore_int 42 (by norm_num) (by norm_num)]
      norm_num)
